import Mathlib

/-!
# XRA1201 GPIO expander driver: register access layer

A shallow embedding of `driver/common/objects/xra1201_common.c`.

* C integers are natural numbers; an argument of type `uint8_t` is a value below 256 and an
  argument of type `uint16_t` a value below 65536.  Every conversion that the C code performs
  between integer types of different width is written out as an explicit `% 256` or `% 65536`.
* The driver talks to the outside world only through the two transport functions declared in
  `i2c.h`.  The bus is an explicit state: the state of whatever device model sits behind the
  transport, together with the list of transactions issued so far, oldest first.
* Each C function becomes a function from the bus before the call to the bus after it (and the
  returned value, for the functions that return one).
-/

namespace XRA1201

/-! ## The I2C transport -/

/-- One transaction handed to the I2C transport: a plain write of some bytes to a slave, or a
combined transaction that writes some bytes and then reads `rlen` bytes back. -/
inductive I2CTxn where
  | write (slave : Nat) (bytes : List Nat)
  | comboRead (slave : Nat) (wbytes : List Nat) (rlen : Nat)
  deriving DecidableEq

/-- The slave address a transaction is directed to. -/
def I2CTxn.slave : I2CTxn → Nat
  | I2CTxn.write s _ => s
  | I2CTxn.comboRead s _ _ => s

/-- A transaction is a plain write. -/
def I2CTxn.isWrite : I2CTxn → Bool
  | I2CTxn.write _ _ => true
  | I2CTxn.comboRead _ _ _ => false

/-- A model of what is attached to the bus.  `onWrite slave bytes` is the reaction to a plain
write; `onComboRead slave wbytes rlen` is the reaction to a combined write-then-read, giving the
value of the byte read at each index together with the next device state. -/
structure I2CDevice (σ : Type) where
  onWrite : Nat → List Nat → σ → σ
  onComboRead : Nat → List Nat → Nat → σ → (Nat → Nat) × σ

/-- The bus: the state of the attached device model and the transactions issued so far. -/
structure Bus (σ : Type) where
  dev : σ
  trace : List I2CTxn

/-- The transactions issued between an earlier bus state and a later one. -/
def issued {σ : Type} (before after : Bus σ) : List I2CTxn :=
  after.trace.drop before.trace.length

/-- Modelled from the spec: the transport function `AIR_I2C_Write` of `i2c.h`, which is not part
of the driver sources: `write(slave_address, byte_buffer, length)` writes `length` bytes of the
buffer to the slave.  The transaction is recorded and shown to the device model. -/
def AIR_I2C_Write {σ : Type} (D : I2CDevice σ) (slave : Nat) (buf : List Nat) (len : Nat)
    (bus : Bus σ) : Bus σ :=
  { dev := D.onWrite slave (buf.take len) bus.dev
    trace := bus.trace ++ [I2CTxn.write slave (buf.take len)] }

/-- Modelled from the spec: the transport function `AIR_I2C_ComboRead` of `i2c.h`, which is not
part of the driver sources: `combined_write_then_read(slave_address, write_buffer, write_length,
read_buffer, read_length)` writes the address byte(s), then reads `read_length` bytes into the
read buffer.  The result is the content of the read buffer (an array of `uint8_t`, hence the
`% 256`) and the next bus state. -/
def AIR_I2C_ComboRead {σ : Type} (D : I2CDevice σ) (slave : Nat) (wbuf : List Nat) (wlen : Nat)
    (rlen : Nat) (bus : Bus σ) : List Nat × Bus σ :=
  let r := D.onComboRead slave (wbuf.take wlen) rlen bus.dev
  ((List.range rlen).map (fun i => r.1 i % 256),
   { dev := r.2
     trace := bus.trace ++ [I2CTxn.comboRead slave (wbuf.take wlen) rlen] })

/-! ## Constants of `xra1201_common.c` -/

def XRA1201_SLAVE_BASE_ADDR : Nat := 0x10

def XRA1201_GSR1_REG_ADDR : Nat := 0x00
def XRA1201_GSR2_REG_ADDR : Nat := 0x01
def XRA1201_OCR1_REG_ADDR : Nat := 0x02
def XRA1201_OCR2_REG_ADDR : Nat := 0x03
def XRA1201_PIR1_REG_ADDR : Nat := 0x04
def XRA1201_PIR2_REG_ADDR : Nat := 0x05
def XRA1201_GCR1_REG_ADDR : Nat := 0x06
def XRA1201_GCR2_REG_ADDR : Nat := 0x07
def XRA1201_PUR1_REG_ADDR : Nat := 0x08
def XRA1201_PUR2_REG_ADDR : Nat := 0x09
def XRA1201_IER1_REG_ADDR : Nat := 0x0A
def XRA1201_IER2_REG_ADDR : Nat := 0x0B
def XRA1201_TSCR1_REG_ADDR : Nat := 0x0C
def XRA1201_TSCR2_REG_ADDR : Nat := 0x0D
def XRA1201_ISR1_REG_ADDR : Nat := 0x0E
def XRA1201_ISR2_REG_ADDR : Nat := 0x0F
def XRA1201_REIR1_REG_ADDR : Nat := 0x10
def XRA1201_REIR2_REG_ADDR : Nat := 0x11
def XRA1201_FEIR1_REG_ADDR : Nat := 0x12
def XRA1201_FEIR2_REG_ADDR : Nat := 0x13
def XRA1201_IFR1_REG_ADDR : Nat := 0x14
def XRA1201_IFR2_REG_ADDR : Nat := 0x15

/-! ## The two primitives -/

/-- The function `void XRA1201_WriteReg(uint8_t id, uint8_t addr, uint16_t data)`.  The assignment
`writeBytes[1] = data` converts the 16-bit `data` to `uint8_t`. -/
def XRA1201_WriteReg {σ : Type} (D : I2CDevice σ) (id addr data : Nat)
    (bus : Bus σ) : Bus σ :=
  let writeBytes : List Nat := [addr, data % 256]
  AIR_I2C_Write D (XRA1201_SLAVE_BASE_ADDR + id) writeBytes 2 bus

/-- The function `uint16_t XRA1201_ReadReg(uint8_t id, uint8_t addr)`.  The returned
`readBytes[0]` is converted from `uint8_t` to `uint16_t`. -/
def XRA1201_ReadReg {σ : Type} (D : I2CDevice σ) (id addr : Nat)
    (bus : Bus σ) : Nat × Bus σ :=
  let writeBytes : List Nat := [addr]
  let r := AIR_I2C_ComboRead D (XRA1201_SLAVE_BASE_ADDR + id) writeBytes 1 1 bus
  (r.1.getD 0 0 % 65536, r.2)

/-! ## The accessors, in the order of the source file -/

/-- The function `uint16_t XRA1201_GetGpioState(uint8_t id)`: `returnValue` is initialised with
the first read; the second read is converted to `uint16_t`, shifted left by 8 after integer
promotion, or-ed in, and the result is stored back into the 16-bit `returnValue`. -/
def XRA1201_GetGpioState {σ : Type} (D : I2CDevice σ) (id : Nat)
    (bus : Bus σ) : Nat × Bus σ :=
  let r1 := XRA1201_ReadReg D id XRA1201_GSR1_REG_ADDR bus
  let returnValue := r1.1
  let r2 := XRA1201_ReadReg D id XRA1201_GSR2_REG_ADDR r1.2
  ((returnValue ||| ((r2.1 % 65536) <<< 8)) % 65536, r2.2)

/-- The function `void XRA1201_SetOutputValue(uint8_t id, uint16_t data)`: each masked `int`
argument is converted to the `uint16_t` parameter of `XRA1201_WriteReg`. -/
def XRA1201_SetOutputValue {σ : Type} (D : I2CDevice σ) (id data : Nat)
    (bus : Bus σ) : Bus σ :=
  let bus1 := XRA1201_WriteReg D id XRA1201_OCR1_REG_ADDR (((data >>> 0) &&& 0xFF) % 65536) bus
  XRA1201_WriteReg D id XRA1201_OCR2_REG_ADDR (((data >>> 8) &&& 0xFF) % 65536) bus1

/-- The function `uint16_t XRA1201_GetOutputValue(uint8_t id)`. -/
def XRA1201_GetOutputValue {σ : Type} (D : I2CDevice σ) (id : Nat)
    (bus : Bus σ) : Nat × Bus σ :=
  let r1 := XRA1201_ReadReg D id XRA1201_OCR1_REG_ADDR bus
  let returnValue := r1.1
  let r2 := XRA1201_ReadReg D id XRA1201_OCR2_REG_ADDR r1.2
  ((returnValue ||| ((r2.1 % 65536) <<< 8)) % 65536, r2.2)

/-- The function `void XRA1201_SetInputPolarityInversion(uint8_t id, uint16_t data)`. -/
def XRA1201_SetInputPolarityInversion {σ : Type} (D : I2CDevice σ) (id data : Nat)
    (bus : Bus σ) : Bus σ :=
  let bus1 := XRA1201_WriteReg D id XRA1201_PIR1_REG_ADDR (((data >>> 0) &&& 0xFF) % 65536) bus
  XRA1201_WriteReg D id XRA1201_PIR2_REG_ADDR (((data >>> 8) &&& 0xFF) % 65536) bus1

/-- The function `uint16_t XRA1201_GetInputPolarityInversion(uint8_t id)`. -/
def XRA1201_GetInputPolarityInversion {σ : Type} (D : I2CDevice σ) (id : Nat)
    (bus : Bus σ) : Nat × Bus σ :=
  let r1 := XRA1201_ReadReg D id XRA1201_PIR1_REG_ADDR bus
  let returnValue := r1.1
  let r2 := XRA1201_ReadReg D id XRA1201_PIR2_REG_ADDR r1.2
  ((returnValue ||| ((r2.1 % 65536) <<< 8)) % 65536, r2.2)

/-- The function `void XRA1201_SetPinDirection(uint8_t id, uint16_t data)`. -/
def XRA1201_SetPinDirection {σ : Type} (D : I2CDevice σ) (id data : Nat)
    (bus : Bus σ) : Bus σ :=
  let bus1 := XRA1201_WriteReg D id XRA1201_GCR1_REG_ADDR (((data >>> 0) &&& 0xFF) % 65536) bus
  XRA1201_WriteReg D id XRA1201_GCR2_REG_ADDR (((data >>> 8) &&& 0xFF) % 65536) bus1

/-- The function `uint16_t XRA1201_GetPinDirection(uint8_t id)`. -/
def XRA1201_GetPinDirection {σ : Type} (D : I2CDevice σ) (id : Nat)
    (bus : Bus σ) : Nat × Bus σ :=
  let r1 := XRA1201_ReadReg D id XRA1201_GCR1_REG_ADDR bus
  let returnValue := r1.1
  let r2 := XRA1201_ReadReg D id XRA1201_GCR2_REG_ADDR r1.2
  ((returnValue ||| ((r2.1 % 65536) <<< 8)) % 65536, r2.2)

/-- The function `void XRA1201_SetInputPullupEnable(uint8_t id, uint16_t data)`. -/
def XRA1201_SetInputPullupEnable {σ : Type} (D : I2CDevice σ) (id data : Nat)
    (bus : Bus σ) : Bus σ :=
  let bus1 := XRA1201_WriteReg D id XRA1201_PUR1_REG_ADDR (((data >>> 0) &&& 0xFF) % 65536) bus
  XRA1201_WriteReg D id XRA1201_PUR2_REG_ADDR (((data >>> 8) &&& 0xFF) % 65536) bus1

/-- The function `uint16_t XRA1201_GetInputPullupEnable(uint8_t id)`. -/
def XRA1201_GetInputPullupEnable {σ : Type} (D : I2CDevice σ) (id : Nat)
    (bus : Bus σ) : Nat × Bus σ :=
  let r1 := XRA1201_ReadReg D id XRA1201_PUR1_REG_ADDR bus
  let returnValue := r1.1
  let r2 := XRA1201_ReadReg D id XRA1201_PUR2_REG_ADDR r1.2
  ((returnValue ||| ((r2.1 % 65536) <<< 8)) % 65536, r2.2)

/-- The function `void XRA1201_SetInterruptEnable(uint8_t id, uint16_t data)`. -/
def XRA1201_SetInterruptEnable {σ : Type} (D : I2CDevice σ) (id data : Nat)
    (bus : Bus σ) : Bus σ :=
  let bus1 := XRA1201_WriteReg D id XRA1201_IER1_REG_ADDR (((data >>> 0) &&& 0xFF) % 65536) bus
  XRA1201_WriteReg D id XRA1201_IER2_REG_ADDR (((data >>> 8) &&& 0xFF) % 65536) bus1

/-- The function `uint16_t XRA1201_GetInterruptEnable(uint8_t id)`. -/
def XRA1201_GetInterruptEnable {σ : Type} (D : I2CDevice σ) (id : Nat)
    (bus : Bus σ) : Nat × Bus σ :=
  let r1 := XRA1201_ReadReg D id XRA1201_IER1_REG_ADDR bus
  let returnValue := r1.1
  let r2 := XRA1201_ReadReg D id XRA1201_IER2_REG_ADDR r1.2
  ((returnValue ||| ((r2.1 % 65536) <<< 8)) % 65536, r2.2)

/-- The function `void XRA1201_SetOutputThreeStateEnable(uint8_t id, uint16_t data)`. -/
def XRA1201_SetOutputThreeStateEnable {σ : Type} (D : I2CDevice σ) (id data : Nat)
    (bus : Bus σ) : Bus σ :=
  let bus1 := XRA1201_WriteReg D id XRA1201_TSCR1_REG_ADDR (((data >>> 0) &&& 0xFF) % 65536) bus
  XRA1201_WriteReg D id XRA1201_TSCR2_REG_ADDR (((data >>> 8) &&& 0xFF) % 65536) bus1

/-- The function `uint16_t XRA1201_GetOutputThreeStateEnable(uint8_t id)`. -/
def XRA1201_GetOutputThreeStateEnable {σ : Type} (D : I2CDevice σ) (id : Nat)
    (bus : Bus σ) : Nat × Bus σ :=
  let r1 := XRA1201_ReadReg D id XRA1201_TSCR1_REG_ADDR bus
  let returnValue := r1.1
  let r2 := XRA1201_ReadReg D id XRA1201_TSCR2_REG_ADDR r1.2
  ((returnValue ||| ((r2.1 % 65536) <<< 8)) % 65536, r2.2)

/-- The function `uint16_t XRA1201_GetInterruptStatus(uint8_t id)`. -/
def XRA1201_GetInterruptStatus {σ : Type} (D : I2CDevice σ) (id : Nat)
    (bus : Bus σ) : Nat × Bus σ :=
  let r1 := XRA1201_ReadReg D id XRA1201_ISR1_REG_ADDR bus
  let returnValue := r1.1
  let r2 := XRA1201_ReadReg D id XRA1201_ISR2_REG_ADDR r1.2
  ((returnValue ||| ((r2.1 % 65536) <<< 8)) % 65536, r2.2)

/-- The function `void XRA1201_SetInterruptRisingEdgeEnable(uint8_t id, uint16_t data)`. -/
def XRA1201_SetInterruptRisingEdgeEnable {σ : Type} (D : I2CDevice σ) (id data : Nat)
    (bus : Bus σ) : Bus σ :=
  let bus1 := XRA1201_WriteReg D id XRA1201_REIR1_REG_ADDR (((data >>> 0) &&& 0xFF) % 65536) bus
  XRA1201_WriteReg D id XRA1201_REIR2_REG_ADDR (((data >>> 8) &&& 0xFF) % 65536) bus1

/-- The function `uint16_t XRA1201_GetInterruptRisingEdgeEnable(uint8_t id)`. -/
def XRA1201_GetInterruptRisingEdgeEnable {σ : Type} (D : I2CDevice σ) (id : Nat)
    (bus : Bus σ) : Nat × Bus σ :=
  let r1 := XRA1201_ReadReg D id XRA1201_REIR1_REG_ADDR bus
  let returnValue := r1.1
  let r2 := XRA1201_ReadReg D id XRA1201_REIR2_REG_ADDR r1.2
  ((returnValue ||| ((r2.1 % 65536) <<< 8)) % 65536, r2.2)

/-- The function `void XRA1201_SetInterruptFallingEdgeEnable(uint8_t id, uint16_t data)`. -/
def XRA1201_SetInterruptFallingEdgeEnable {σ : Type} (D : I2CDevice σ) (id data : Nat)
    (bus : Bus σ) : Bus σ :=
  let bus1 := XRA1201_WriteReg D id XRA1201_FEIR1_REG_ADDR (((data >>> 0) &&& 0xFF) % 65536) bus
  XRA1201_WriteReg D id XRA1201_FEIR2_REG_ADDR (((data >>> 8) &&& 0xFF) % 65536) bus1

/-- The function `uint16_t XRA1201_GetInterruptFallingEdgeEnable(uint8_t id)`. -/
def XRA1201_GetInterruptFallingEdgeEnable {σ : Type} (D : I2CDevice σ) (id : Nat)
    (bus : Bus σ) : Nat × Bus σ :=
  let r1 := XRA1201_ReadReg D id XRA1201_FEIR1_REG_ADDR bus
  let returnValue := r1.1
  let r2 := XRA1201_ReadReg D id XRA1201_FEIR2_REG_ADDR r1.2
  ((returnValue ||| ((r2.1 % 65536) <<< 8)) % 65536, r2.2)

/-- The function `void XRA1201_SetInterruptFilterEnable(uint8_t id, uint16_t data)`. -/
def XRA1201_SetInterruptFilterEnable {σ : Type} (D : I2CDevice σ) (id data : Nat)
    (bus : Bus σ) : Bus σ :=
  let bus1 := XRA1201_WriteReg D id XRA1201_IFR1_REG_ADDR (((data >>> 0) &&& 0xFF) % 65536) bus
  XRA1201_WriteReg D id XRA1201_IFR2_REG_ADDR (((data >>> 8) &&& 0xFF) % 65536) bus1

/-- The function `uint16_t XRA1201_GetInterruptFilterEnable(uint8_t id)`. -/
def XRA1201_GetInterruptFilterEnable {σ : Type} (D : I2CDevice σ) (id : Nat)
    (bus : Bus σ) : Nat × Bus σ :=
  let r1 := XRA1201_ReadReg D id XRA1201_IFR1_REG_ADDR bus
  let returnValue := r1.1
  let r2 := XRA1201_ReadReg D id XRA1201_IFR2_REG_ADDR r1.2
  ((returnValue ||| ((r2.1 % 65536) <<< 8)) % 65536, r2.2)

/-! ## Tables over the accessors -/

/-- The eleven logical functions of the device, named after their register pair. -/
inductive Reg where
  | GSR
  | OCR
  | PIR
  | GCR
  | PUR
  | IER
  | TSCR
  | ISR
  | REIR
  | FEIR
  | IFR
  deriving DecidableEq

/-- The eleven `XRA1201_Get*` functions. -/
inductive Getter where
  | GpioState
  | OutputValue
  | InputPolarityInversion
  | PinDirection
  | InputPullupEnable
  | InterruptEnable
  | OutputThreeStateEnable
  | InterruptStatus
  | InterruptRisingEdgeEnable
  | InterruptFallingEdgeEnable
  | InterruptFilterEnable
  deriving DecidableEq

/-- The nine `XRA1201_Set*` functions. -/
inductive Setter where
  | OutputValue
  | InputPolarityInversion
  | PinDirection
  | InputPullupEnable
  | InterruptEnable
  | OutputThreeStateEnable
  | InterruptRisingEdgeEnable
  | InterruptFallingEdgeEnable
  | InterruptFilterEnable
  deriving DecidableEq

/-- Call the getter of that name. -/
def Getter.run {σ : Type} (D : I2CDevice σ) : Getter → Nat → Bus σ → Nat × Bus σ
  | Getter.GpioState => XRA1201_GetGpioState D
  | Getter.OutputValue => XRA1201_GetOutputValue D
  | Getter.InputPolarityInversion => XRA1201_GetInputPolarityInversion D
  | Getter.PinDirection => XRA1201_GetPinDirection D
  | Getter.InputPullupEnable => XRA1201_GetInputPullupEnable D
  | Getter.InterruptEnable => XRA1201_GetInterruptEnable D
  | Getter.OutputThreeStateEnable => XRA1201_GetOutputThreeStateEnable D
  | Getter.InterruptStatus => XRA1201_GetInterruptStatus D
  | Getter.InterruptRisingEdgeEnable => XRA1201_GetInterruptRisingEdgeEnable D
  | Getter.InterruptFallingEdgeEnable => XRA1201_GetInterruptFallingEdgeEnable D
  | Getter.InterruptFilterEnable => XRA1201_GetInterruptFilterEnable D

/-- Call the setter of that name. -/
def Setter.run {σ : Type} (D : I2CDevice σ) : Setter → Nat → Nat → Bus σ → Bus σ
  | Setter.OutputValue => XRA1201_SetOutputValue D
  | Setter.InputPolarityInversion => XRA1201_SetInputPolarityInversion D
  | Setter.PinDirection => XRA1201_SetPinDirection D
  | Setter.InputPullupEnable => XRA1201_SetInputPullupEnable D
  | Setter.InterruptEnable => XRA1201_SetInterruptEnable D
  | Setter.OutputThreeStateEnable => XRA1201_SetOutputThreeStateEnable D
  | Setter.InterruptRisingEdgeEnable => XRA1201_SetInterruptRisingEdgeEnable D
  | Setter.InterruptFallingEdgeEnable => XRA1201_SetInterruptFallingEdgeEnable D
  | Setter.InterruptFilterEnable => XRA1201_SetInterruptFilterEnable D

/-- The logical function each getter belongs to. -/
def Getter.reg : Getter → Reg
  | Getter.GpioState => Reg.GSR
  | Getter.OutputValue => Reg.OCR
  | Getter.InputPolarityInversion => Reg.PIR
  | Getter.PinDirection => Reg.GCR
  | Getter.InputPullupEnable => Reg.PUR
  | Getter.InterruptEnable => Reg.IER
  | Getter.OutputThreeStateEnable => Reg.TSCR
  | Getter.InterruptStatus => Reg.ISR
  | Getter.InterruptRisingEdgeEnable => Reg.REIR
  | Getter.InterruptFallingEdgeEnable => Reg.FEIR
  | Getter.InterruptFilterEnable => Reg.IFR

/-- The logical function each setter belongs to. -/
def Setter.reg : Setter → Reg
  | Setter.OutputValue => Reg.OCR
  | Setter.InputPolarityInversion => Reg.PIR
  | Setter.PinDirection => Reg.GCR
  | Setter.InputPullupEnable => Reg.PUR
  | Setter.InterruptEnable => Reg.IER
  | Setter.OutputThreeStateEnable => Reg.TSCR
  | Setter.InterruptRisingEdgeEnable => Reg.REIR
  | Setter.InterruptFallingEdgeEnable => Reg.FEIR
  | Setter.InterruptFilterEnable => Reg.IFR

/-- All getters. -/
def allGetters : List Getter :=
  [Getter.GpioState,
   Getter.OutputValue,
   Getter.InputPolarityInversion,
   Getter.PinDirection,
   Getter.InputPullupEnable,
   Getter.InterruptEnable,
   Getter.OutputThreeStateEnable,
   Getter.InterruptStatus,
   Getter.InterruptRisingEdgeEnable,
   Getter.InterruptFallingEdgeEnable,
   Getter.InterruptFilterEnable]

/-- All setters. -/
def allSetters : List Setter :=
  [Setter.OutputValue,
   Setter.InputPolarityInversion,
   Setter.PinDirection,
   Setter.InputPullupEnable,
   Setter.InterruptEnable,
   Setter.OutputThreeStateEnable,
   Setter.InterruptRisingEdgeEnable,
   Setter.InterruptFallingEdgeEnable,
   Setter.InterruptFilterEnable]

/-- All logical functions. -/
def allRegs : List Reg :=
  [Reg.GSR, Reg.OCR, Reg.PIR, Reg.GCR, Reg.PUR, Reg.IER, Reg.TSCR, Reg.ISR, Reg.REIR, Reg.FEIR,
   Reg.IFR]

/-! ## The register map of the specification and a mock device -/

/-- The register address map as the specification gives it: the address of "register 1" of each
logical function; "register 2" is at that address plus one. -/
def specAddr : Reg → Nat
  | Reg.GSR => 0x00
  | Reg.OCR => 0x02
  | Reg.PIR => 0x04
  | Reg.GCR => 0x06
  | Reg.PUR => 0x08
  | Reg.IER => 0x0A
  | Reg.TSCR => 0x0C
  | Reg.ISR => 0x0E
  | Reg.REIR => 0x10
  | Reg.FEIR => 0x12
  | Reg.IFR => 0x14

/-- The state of the echoing mock: the byte stored for each slave address and register
address. -/
abbrev MockMem : Type := Nat → Nat → Nat

/-- The echoing mock of the testable properties of the specification: a plain write of the two
bytes `[addr, b]` to a slave stores `b` at `(slave, addr)` and changes nothing else; a combined
read whose written part is the single byte `[addr]` returns the byte stored at `(slave, addr)`
and changes nothing.  Any other transaction is ignored. -/
def mockDevice : I2CDevice MockMem where
  onWrite slave bytes mem :=
    match bytes with
    | [addr, b] => fun s a => if s = slave ∧ a = addr then b else mem s a
    | _ => mem
  onComboRead slave wbytes _ mem :=
    match wbytes with
    | [addr] => (fun _ => mem slave addr, mem)
    | _ => (fun _ => 0, mem)

/-- A mock bus on which nothing has happened yet, with the given register contents. -/
def mockBus (mem : MockMem) : Bus MockMem :=
  { dev := mem, trace := [] }

/-- A device with a read side effect, the one the documentation of `XRA1201_GetGpioState`
names: the state is whether an interrupt is pending, and a combined read of either GPIO state
register clears it.  Plain writes and other reads leave the state alone; every byte read is
zero. -/
def interruptClearingDevice : I2CDevice Bool where
  onWrite _ _ pending := pending
  onComboRead _ wbytes _ pending :=
    match wbytes with
    | [addr] =>
      (fun _ => 0,
        if addr = XRA1201_GSR1_REG_ADDR ∨ addr = XRA1201_GSR2_REG_ADDR then false else pending)
    | _ => (fun _ => 0, pending)

/-- A bus to the interrupt-clearing device on which nothing has happened yet. -/
def interruptPendingBus (pending : Bool) : Bus Bool :=
  { dev := pending, trace := [] }

/-- The getter that has the same name as a setter, `Get` for `Set`. -/
def Setter.getter : Setter → Getter
  | Setter.OutputValue => Getter.OutputValue
  | Setter.InputPolarityInversion => Getter.InputPolarityInversion
  | Setter.PinDirection => Getter.PinDirection
  | Setter.InputPullupEnable => Getter.InputPullupEnable
  | Setter.InterruptEnable => Getter.InterruptEnable
  | Setter.OutputThreeStateEnable => Getter.OutputThreeStateEnable
  | Setter.InterruptRisingEdgeEnable => Getter.InterruptRisingEdgeEnable
  | Setter.InterruptFallingEdgeEnable => Getter.InterruptFallingEdgeEnable
  | Setter.InterruptFilterEnable => Getter.InterruptFilterEnable

/-- The first of the two primitive reads the specification prescribes for a getter: register 1
of its function, read on the bus as the getter finds it. -/
def lowRead {σ : Type} (D : I2CDevice σ) (g : Getter) (id : Nat) (bus : Bus σ) : Nat × Bus σ :=
  XRA1201_ReadReg D id (specAddr g.reg) bus

/-- The second of the two primitive reads the specification prescribes for a getter: register 2
of its function, read on the bus as the first read leaves it. -/
def highRead {σ : Type} (D : I2CDevice σ) (g : Getter) (id : Nat)
    (bus : Bus σ) : Nat × Bus σ :=
  XRA1201_ReadReg D id (specAddr g.reg + 1) (lowRead D g id bus).2

/-- The two combined reads of a register pair starting at address `X` on a slave. -/
def readsAt (slave X : Nat) : List I2CTxn :=
  [I2CTxn.comboRead slave [X] 1, I2CTxn.comboRead slave [X + 1] 1]

/-- The two plain writes that store the 16-bit value `v` in the register pair starting at
address `X` on a slave, low byte first. -/
def writesAt (slave X v : Nat) : List I2CTxn :=
  [I2CTxn.write slave [X, v &&& 0xFF], I2CTxn.write slave [X + 1, (v >>> 8) &&& 0xFF]]

end XRA1201

namespace XRA1201

/-! ## Auxiliary facts -/

theorem issued_append {σ : Type} (bus after : Bus σ) (ts : List I2CTxn)
    (h : after.trace = bus.trace ++ ts) : issued bus after = ts := by
  simp [issued, h]

theorem lor_shift_eq_add (lo hi : Nat) (hlo : lo < 256) :
    lo ||| (hi <<< 8) = 256 * hi + lo := by
  have h := Nat.mul_add_lt_is_or (i := 8) (b := lo) (by simpa using hlo) hi
  rw [Nat.shiftLeft_eq, Nat.lor_comm, Nat.mul_comm hi]
  simpa using h.symm

theorem combine_bytes (lo hi : Nat) (hlo : lo < 256) (hhi : hi < 256) :
    (lo ||| ((hi % 65536) <<< 8)) % 65536 = lo ||| (hi <<< 8) := by
  have h1 : hi % 65536 = hi := Nat.mod_eq_of_lt (by omega)
  rw [h1, lor_shift_eq_add lo hi hlo]
  omega

theorem and_ff_eq_mod (v : Nat) : v &&& 0xFF = v % 256 := by
  have h := Nat.and_pow_two_sub_one_eq_mod v 8
  simpa using h

theorem low_byte_arg (v : Nat) : (((v >>> 0) &&& 0xFF) % 65536) % 256 = v &&& 0xFF := by
  rw [Nat.shiftRight_zero, and_ff_eq_mod]
  omega

theorem high_byte_arg (v : Nat) : (((v >>> 8) &&& 0xFF) % 65536) % 256 = (v >>> 8) &&& 0xFF := by
  rw [and_ff_eq_mod]
  omega

theorem WriteReg_eq {σ : Type} (D : I2CDevice σ) (id addr data : Nat) (bus : Bus σ) :
    XRA1201_WriteReg D id addr data bus =
      { dev := D.onWrite (XRA1201_SLAVE_BASE_ADDR + id) [addr, data % 256] bus.dev
        trace := bus.trace ++
          [I2CTxn.write (XRA1201_SLAVE_BASE_ADDR + id) [addr, data % 256]] } := by
  simp [XRA1201_WriteReg, AIR_I2C_Write]

theorem ReadReg_eq {σ : Type} (D : I2CDevice σ) (id addr : Nat) (bus : Bus σ) :
    XRA1201_ReadReg D id addr bus =
      ((D.onComboRead (XRA1201_SLAVE_BASE_ADDR + id) [addr] 1 bus.dev).1 0 % 256,
        { dev := (D.onComboRead (XRA1201_SLAVE_BASE_ADDR + id) [addr] 1 bus.dev).2
          trace := bus.trace ++ [I2CTxn.comboRead (XRA1201_SLAVE_BASE_ADDR + id) [addr] 1] }) := by
  simp [XRA1201_ReadReg, AIR_I2C_ComboRead]
  omega

theorem ReadReg_lt {σ : Type} (D : I2CDevice σ) (id addr : Nat) (bus : Bus σ) :
    (XRA1201_ReadReg D id addr bus).1 < 256 := by
  rw [ReadReg_eq]
  exact Nat.mod_lt _ (by decide)

theorem Getter_run_eq {σ : Type} (D : I2CDevice σ) (g : Getter) (id : Nat) (bus : Bus σ) :
    g.run D id bus =
      (((XRA1201_ReadReg D id (specAddr g.reg) bus).1 |||
          (((XRA1201_ReadReg D id (specAddr g.reg + 1)
              (XRA1201_ReadReg D id (specAddr g.reg) bus).2).1 % 65536) <<< 8)) % 65536,
        (XRA1201_ReadReg D id (specAddr g.reg + 1)
          (XRA1201_ReadReg D id (specAddr g.reg) bus).2).2) := by
  cases g <;> rfl

theorem Setter_run_eq {σ : Type} (D : I2CDevice σ) (s : Setter) (id v : Nat) (bus : Bus σ) :
    s.run D id v bus =
      XRA1201_WriteReg D id (specAddr s.reg + 1) (((v >>> 8) &&& 0xFF) % 65536)
        (XRA1201_WriteReg D id (specAddr s.reg) (((v >>> 0) &&& 0xFF) % 65536) bus) := by
  cases s <;> rfl

theorem Setter_run_trace {σ : Type} (D : I2CDevice σ) (s : Setter) (id v : Nat) (bus : Bus σ) :
    (s.run D id v bus).trace =
      bus.trace ++ [I2CTxn.write (XRA1201_SLAVE_BASE_ADDR + id) [specAddr s.reg, v &&& 0xFF],
        I2CTxn.write (XRA1201_SLAVE_BASE_ADDR + id) [specAddr s.reg + 1, (v >>> 8) &&& 0xFF]] := by
  rw [Setter_run_eq, WriteReg_eq, WriteReg_eq, low_byte_arg, high_byte_arg]
  simp

theorem Getter_run_trace {σ : Type} (D : I2CDevice σ) (g : Getter) (id : Nat) (bus : Bus σ) :
    (g.run D id bus).2.trace =
      bus.trace ++ [I2CTxn.comboRead (XRA1201_SLAVE_BASE_ADDR + id) [specAddr g.reg] 1,
        I2CTxn.comboRead (XRA1201_SLAVE_BASE_ADDR + id) [specAddr g.reg + 1] 1] := by
  rw [Getter_run_eq, ReadReg_eq, ReadReg_eq]
  simp

/-! ## The primitives -/

/-- C6: for every device model, id, register address and data, `XRA1201_WriteReg` issues exactly
one transaction, a plain write to slave `0x10 + id` of the two bytes `[addr, data & 0xFF]`, and
the device sees exactly that write; a call whose data has the same low byte leaves the bus in
the same state, whatever the high byte is. -/
theorem writeReg_issues_one_write {σ : Type} (D : I2CDevice σ) (id addr data data' : Nat)
    (bus : Bus σ) (hlow : data' &&& 0xFF = data &&& 0xFF) :
    (XRA1201_WriteReg D id addr data bus).trace =
        bus.trace ++ [I2CTxn.write (XRA1201_SLAVE_BASE_ADDR + id) [addr, data &&& 0xFF]]
      ∧ issued bus (XRA1201_WriteReg D id addr data bus) =
        [I2CTxn.write (XRA1201_SLAVE_BASE_ADDR + id) [addr, data &&& 0xFF]]
      ∧ [addr, data &&& 0xFF].length = 2
      ∧ (XRA1201_WriteReg D id addr data bus).dev =
        D.onWrite (XRA1201_SLAVE_BASE_ADDR + id) [addr, data &&& 0xFF] bus.dev
      ∧ XRA1201_WriteReg D id addr data' bus = XRA1201_WriteReg D id addr data bus := by
  have ht : (XRA1201_WriteReg D id addr data bus).trace =
      bus.trace ++ [I2CTxn.write (XRA1201_SLAVE_BASE_ADDR + id) [addr, data &&& 0xFF]] := by
    rw [WriteReg_eq, and_ff_eq_mod]
  refine ⟨ht, issued_append _ _ _ ht, rfl, ?_, ?_⟩
  · rw [WriteReg_eq, and_ff_eq_mod]
  · rw [and_ff_eq_mod, and_ff_eq_mod] at hlow
    rw [WriteReg_eq, WriteReg_eq, hlow]

/-- Witness for C6: the data words 0x1234 and 0xAB34 agree in the low byte 0x34, and writing
either to register 0x02 of device 0 on the mock bus issues the single write `[0x02, 0x34]` to
slave 0x10. -/
theorem writeReg_issues_one_write_witness :
    (0xAB34 &&& 0xFF = 0x1234 &&& 0xFF)
      ∧ issued (mockBus (fun _ _ => 0))
          (XRA1201_WriteReg mockDevice 0 0x02 0x1234 (mockBus (fun _ _ => 0))) =
        [I2CTxn.write 0x10 [0x02, 0x34]]
      ∧ XRA1201_WriteReg mockDevice 0 0x02 0xAB34 (mockBus (fun _ _ => 0)) =
        XRA1201_WriteReg mockDevice 0 0x02 0x1234 (mockBus (fun _ _ => 0)) :=
  ⟨by decide,
    (writeReg_issues_one_write mockDevice 0 0x02 0x1234 0xAB34 (mockBus (fun _ _ => 0))
      (by decide)).2.1,
    (writeReg_issues_one_write mockDevice 0 0x02 0x1234 0xAB34 (mockBus (fun _ _ => 0))
      (by decide)).2.2.2.2⟩

/-- C7: for every device model, id and register address, `XRA1201_ReadReg` issues exactly one
transaction, a combined write-then-read to slave `0x10 + id` that writes the single byte `addr`
and reads one byte; the read buffer then holds exactly one byte `b`, the function returns `b`,
and the returned value is at most 0x00FF, its upper byte being zero. -/
theorem readReg_issues_one_combo_read {σ : Type} (D : I2CDevice σ) (id addr : Nat)
    (bus : Bus σ) :
    (XRA1201_ReadReg D id addr bus).2.trace =
        bus.trace ++ [I2CTxn.comboRead (XRA1201_SLAVE_BASE_ADDR + id) [addr] 1]
      ∧ issued bus (XRA1201_ReadReg D id addr bus).2 =
        [I2CTxn.comboRead (XRA1201_SLAVE_BASE_ADDR + id) [addr] 1]
      ∧ (AIR_I2C_ComboRead D (XRA1201_SLAVE_BASE_ADDR + id) [addr] 1 1 bus).1 =
        [(XRA1201_ReadReg D id addr bus).1]
      ∧ (XRA1201_ReadReg D id addr bus).1 =
        (D.onComboRead (XRA1201_SLAVE_BASE_ADDR + id) [addr] 1 bus.dev).1 0 % 256
      ∧ (XRA1201_ReadReg D id addr bus).1 ≤ 0x00FF
      ∧ (XRA1201_ReadReg D id addr bus).1 >>> 8 = 0
      ∧ (XRA1201_ReadReg D id addr bus).2.dev =
        (D.onComboRead (XRA1201_SLAVE_BASE_ADDR + id) [addr] 1 bus.dev).2 := by
  have hlt := ReadReg_lt D id addr bus
  have ht : (XRA1201_ReadReg D id addr bus).2.trace =
      bus.trace ++ [I2CTxn.comboRead (XRA1201_SLAVE_BASE_ADDR + id) [addr] 1] := by
    rw [ReadReg_eq]
  refine ⟨ht, issued_append _ _ _ ht, ?_, ?_, by omega, ?_, ?_⟩
  · rw [ReadReg_eq]
    rfl
  · rw [ReadReg_eq]
  · rw [Nat.shiftRight_eq_div_pow]
    exact Nat.div_eq_of_lt (by simpa using hlt)
  · rw [ReadReg_eq]

/-! ## The accessors -/

/-- C2: every setter, for every device model, id and value `v`, issues exactly two
transactions, both plain writes to slave `0x10 + id`: first the two bytes `(X, v & 0xFF)`, then
the two bytes `(X + 1, (v >> 8) & 0xFF)`, with `X` the register-1 address of its function, and
the device sees them in that order.  In particular `XRA1201_SetInterruptFilterEnable(2, 0xFFFF)`
writes 0xFF to address 0x14 and then 0xFF to address 0x15 on slave 0x12. -/
theorem setter_issues_two_writes {σ : Type} (D : I2CDevice σ) (s : Setter) (id v : Nat)
    (bus : Bus σ) :
    (s.run D id v bus).trace =
        bus.trace ++ [I2CTxn.write (0x10 + id) [specAddr s.reg, v &&& 0xFF],
          I2CTxn.write (0x10 + id) [specAddr s.reg + 1, (v >>> 8) &&& 0xFF]]
      ∧ issued bus (s.run D id v bus) =
        [I2CTxn.write (0x10 + id) [specAddr s.reg, v &&& 0xFF],
          I2CTxn.write (0x10 + id) [specAddr s.reg + 1, (v >>> 8) &&& 0xFF]]
      ∧ (s.run D id v bus).dev =
        D.onWrite (0x10 + id) [specAddr s.reg + 1, (v >>> 8) &&& 0xFF]
          (D.onWrite (0x10 + id) [specAddr s.reg, v &&& 0xFF] bus.dev)
      ∧ issued bus (XRA1201_SetInterruptFilterEnable D 2 0xFFFF bus) =
        [I2CTxn.write 0x12 [0x14, 0xFF], I2CTxn.write 0x12 [0x15, 0xFF]] := by
  have ht := Setter_run_trace D s id v bus
  have hf := Setter_run_trace D Setter.InterruptFilterEnable 2 0xFFFF bus
  refine ⟨ht, issued_append _ _ _ ht, ?_, issued_append _ _ _ hf⟩
  rw [Setter_run_eq, WriteReg_eq, WriteReg_eq, low_byte_arg, high_byte_arg]
  rfl

/-- C3: every getter, for every device model and id, does exactly what two primitive reads do,
the first at register address `X` and the second at `X + 1` of its function: it issues those
two combined reads and no other transaction, leaves the bus as they leave it, and returns
`low | (high << 8)` for the byte `low` read from `X` and the byte `high` read from `X + 1`, so
that the result masked with 0xFF is `low` and the result shifted right by 8 is `high`.  In
particular `XRA1201_GetGpioState` reads the addresses 0x00 and 0x01. -/
theorem getter_combines_two_reads {σ : Type} (D : I2CDevice σ) (g : Getter) (id : Nat)
    (bus : Bus σ) :
    issued bus (g.run D id bus).2 =
        [I2CTxn.comboRead (0x10 + id) [specAddr g.reg] 1,
          I2CTxn.comboRead (0x10 + id) [specAddr g.reg + 1] 1]
      ∧ (g.run D id bus).2 = (highRead D g id bus).2
      ∧ (g.run D id bus).1 = (lowRead D g id bus).1 ||| ((highRead D g id bus).1 <<< 8)
      ∧ (g.run D id bus).1 &&& 0xFF = (lowRead D g id bus).1
      ∧ (g.run D id bus).1 >>> 8 = (highRead D g id bus).1
      ∧ issued bus (XRA1201_GetGpioState D id bus).2 =
        [I2CTxn.comboRead (0x10 + id) [0x00] 1, I2CTxn.comboRead (0x10 + id) [0x01] 1]
      ∧ (XRA1201_GetGpioState D id bus).1 =
        (XRA1201_ReadReg D id 0x00 bus).1 |||
          ((XRA1201_ReadReg D id 0x01 (XRA1201_ReadReg D id 0x00 bus).2).1 <<< 8) := by
  have hlo : (lowRead D g id bus).1 < 256 := ReadReg_lt _ _ _ _
  have hhi : (highRead D g id bus).1 < 256 := ReadReg_lt _ _ _ _
  have hval : (g.run D id bus).1 =
      (lowRead D g id bus).1 ||| ((highRead D g id bus).1 <<< 8) := by
    rw [Getter_run_eq]
    exact combine_bytes _ _ hlo hhi
  have hG := combine_bytes _ _ (ReadReg_lt D id 0x00 bus)
    (ReadReg_lt D id 0x01 (XRA1201_ReadReg D id 0x00 bus).2)
  refine ⟨issued_append _ _ _ (Getter_run_trace D g id bus), ?_, hval, ?_, ?_,
    issued_append _ _ _ (Getter_run_trace D Getter.GpioState id bus), hG⟩
  · rw [Getter_run_eq]
    rfl
  · rw [hval, lor_shift_eq_add _ _ hlo, and_ff_eq_mod]
    omega
  · rw [hval, lor_shift_eq_add _ _ hlo, Nat.shiftRight_eq_div_pow]
    omega

/-- C4: the transaction issued by `XRA1201_WriteReg`, the one issued by `XRA1201_ReadReg`, the
two issued by any getter and the two issued by any setter are all addressed to slave
`0x10 + id`; for an id in 0..31 that address lies in 0x10..0x2F, is below 128 and so is
unchanged by reduction to 7 or 8 bits; id 5 gives 0x15 and id 31 gives 0x2F. -/
theorem slave_address_is_base_plus_id {σ : Type} (D : I2CDevice σ) (g : Getter) (s : Setter)
    (id addr data v : Nat) (bus : Bus σ) :
    (issued bus (XRA1201_WriteReg D id addr data bus)).map I2CTxn.slave = [0x10 + id]
      ∧ (issued bus (XRA1201_ReadReg D id addr bus).2).map I2CTxn.slave = [0x10 + id]
      ∧ (issued bus (g.run D id bus).2).map I2CTxn.slave = [0x10 + id, 0x10 + id]
      ∧ (issued bus (s.run D id v bus)).map I2CTxn.slave = [0x10 + id, 0x10 + id]
      ∧ (id ≤ 31 →
          0x10 ≤ XRA1201_SLAVE_BASE_ADDR + id ∧ XRA1201_SLAVE_BASE_ADDR + id ≤ 0x2F
            ∧ (XRA1201_SLAVE_BASE_ADDR + id) % 128 = XRA1201_SLAVE_BASE_ADDR + id
            ∧ (XRA1201_SLAVE_BASE_ADDR + id) % 256 = XRA1201_SLAVE_BASE_ADDR + id)
      ∧ XRA1201_SLAVE_BASE_ADDR + 5 = 0x15
      ∧ XRA1201_SLAVE_BASE_ADDR + 31 = 0x2F := by
  have hw : (XRA1201_WriteReg D id addr data bus).trace = bus.trace ++
      [I2CTxn.write (XRA1201_SLAVE_BASE_ADDR + id) [addr, data % 256]] := by
    rw [WriteReg_eq]
  have hr : (XRA1201_ReadReg D id addr bus).2.trace = bus.trace ++
      [I2CTxn.comboRead (XRA1201_SLAVE_BASE_ADDR + id) [addr] 1] := by
    rw [ReadReg_eq]
  rw [issued_append _ _ _ hw, issued_append _ _ _ hr,
    issued_append _ _ _ (Getter_run_trace D g id bus),
    issued_append _ _ _ (Setter_run_trace D s id v bus)]
  refine ⟨rfl, rfl, rfl, rfl, ?_, rfl, rfl⟩
  intro hid
  simp only [XRA1201_SLAVE_BASE_ADDR]
  omega

/-- Witness for C4: device id 5 is in range, the write of `XRA1201_WriteReg(5, 0x02, 0x1234)` on
the mock bus goes to slave 0x15, and 0x15 lies in 0x10..0x2F. -/
theorem slave_address_is_base_plus_id_witness :
    (5 ≤ 31)
      ∧ (issued (mockBus (fun _ _ => 0))
          (XRA1201_WriteReg mockDevice 5 0x02 0x1234 (mockBus (fun _ _ => 0)))).map
            I2CTxn.slave = [0x15]
      ∧ (0x10 ≤ XRA1201_SLAVE_BASE_ADDR + 5 ∧ XRA1201_SLAVE_BASE_ADDR + 5 ≤ 0x2F
          ∧ (XRA1201_SLAVE_BASE_ADDR + 5) % 128 = XRA1201_SLAVE_BASE_ADDR + 5
          ∧ (XRA1201_SLAVE_BASE_ADDR + 5) % 256 = XRA1201_SLAVE_BASE_ADDR + 5) :=
  ⟨by decide,
    (slave_address_is_base_plus_id mockDevice Getter.GpioState Setter.OutputValue 5 0x02 0x1234
      0 (mockBus (fun _ _ => 0))).1,
    (slave_address_is_base_plus_id mockDevice Getter.GpioState Setter.OutputValue 5 0x02 0x1234
      0 (mockBus (fun _ _ => 0))).2.2.2.2.1 (by decide)⟩

theorem mockDevice_read_keeps_state (sl : Nat) (w : List Nat) (n : Nat) (st : MockMem) :
    (mockDevice.onComboRead sl w n st).2 = st := by
  simp only [mockDevice]
  split <;> rfl

theorem Getter_run_dev {σ : Type} (D : I2CDevice σ) (g : Getter) (id : Nat) (bus : Bus σ)
    (hD : ∀ sl w n st, (D.onComboRead sl w n st).2 = st) : (g.run D id bus).2.dev = bus.dev := by
  rw [Getter_run_eq, ReadReg_eq, ReadReg_eq]
  simp only [hD]

/-- C5: every getter, for every device model and id, whatever the device does on a read,
issues only combined write-then-read transactions, each of which writes a single byte, the
register address, and reads one byte; it issues no plain write.  Hence on a device model whose
state is changed only by plain writes, the echoing mock among them, the device state after the
call is the state before it. -/
theorem getter_issues_no_write {σ : Type} (D : I2CDevice σ) (g : Getter) (id : Nat)
    (bus : Bus σ) (mbus : Bus MockMem) :
    (∀ t ∈ issued bus (g.run D id bus).2,
        t = I2CTxn.comboRead (0x10 + id) [specAddr g.reg] 1
          ∨ t = I2CTxn.comboRead (0x10 + id) [specAddr g.reg + 1] 1)
      ∧ (issued bus (g.run D id bus).2).filter I2CTxn.isWrite = []
      ∧ ((∀ sl w n st, (D.onComboRead sl w n st).2 = st) → (g.run D id bus).2.dev = bus.dev)
      ∧ (g.run mockDevice id mbus).2.dev = mbus.dev := by
  rw [issued_append _ _ _ (Getter_run_trace D g id bus)]
  refine ⟨?_, rfl, Getter_run_dev D g id bus,
    Getter_run_dev mockDevice g id mbus mockDevice_read_keeps_state⟩
  intro t ht
  simpa [XRA1201_SLAVE_BASE_ADDR] using ht

/-- Witness for C5: the echoing mock changes state only on plain writes, and
`XRA1201_GetGpioState(3)` on it issues no plain write and leaves the register contents as they
were; on the device whose pending interrupt is cleared by a read of the GPIO state registers,
`XRA1201_GetGpioState(3)` issues no plain write either, although the interrupt is cleared. -/
theorem getter_issues_no_write_witness :
    (∀ sl w n st, (mockDevice.onComboRead sl w n st).2 = st)
      ∧ (issued (mockBus (fun _ a => a))
          (XRA1201_GetGpioState mockDevice 3 (mockBus (fun _ a => a))).2).filter
            I2CTxn.isWrite = []
      ∧ (XRA1201_GetGpioState mockDevice 3 (mockBus (fun _ a => a))).2.dev =
        (mockBus (fun _ a => a)).dev
      ∧ (issued (interruptPendingBus true)
          (XRA1201_GetGpioState interruptClearingDevice 3 (interruptPendingBus true)).2).filter
            I2CTxn.isWrite = []
      ∧ (XRA1201_GetGpioState interruptClearingDevice 3 (interruptPendingBus true)).2.dev =
        false :=
  ⟨mockDevice_read_keeps_state,
    (getter_issues_no_write mockDevice Getter.GpioState 3 (mockBus (fun _ a => a))
      (mockBus (fun _ a => a))).2.1,
    (getter_issues_no_write mockDevice Getter.GpioState 3 (mockBus (fun _ a => a))
      (mockBus (fun _ a => a))).2.2.1 mockDevice_read_keeps_state,
    (getter_issues_no_write interruptClearingDevice Getter.GpioState 3
      (interruptPendingBus true) (mockBus (fun _ a => a))).2.1,
    rfl⟩

/-- C8: the register address map.  The table of the specification is GSR=0x00, OCR=0x02,
PIR=0x04, GCR=0x06, PUR=0x08, IER=0x0A, TSCR=0x0C, ISR=0x0E, REIR=0x10, FEIR=0x12, IFR=0x14; each
of the twenty accessors issues its two transactions at register 1 and register 2 = register 1
plus one of its function (GetGpioState at GSR, Set/GetOutputValue at OCR, and so on through
Set/GetInterruptFilterEnable at IFR); a setter and the getter of the same name use the same
pair; the eleven pairs are pairwise disjoint, and put one after the other they are exactly the
22 addresses 0x00..0x15. -/
theorem register_address_map {σ : Type} (D : I2CDevice σ) (id v : Nat) (bus : Bus σ) :
    allRegs.map specAddr = [0x00, 0x02, 0x04, 0x06, 0x08, 0x0A, 0x0C, 0x0E, 0x10, 0x12, 0x14]
      ∧ (∀ r : Reg, r ∈ allRegs)
      ∧ issued bus (XRA1201_GetGpioState D id bus).2 = readsAt (0x10 + id) 0x00
      ∧ issued bus (XRA1201_SetOutputValue D id v bus) = writesAt (0x10 + id) 0x02 v
      ∧ issued bus (XRA1201_GetOutputValue D id bus).2 = readsAt (0x10 + id) 0x02
      ∧ issued bus (XRA1201_SetInputPolarityInversion D id v bus) = writesAt (0x10 + id) 0x04 v
      ∧ issued bus (XRA1201_GetInputPolarityInversion D id bus).2 = readsAt (0x10 + id) 0x04
      ∧ issued bus (XRA1201_SetPinDirection D id v bus) = writesAt (0x10 + id) 0x06 v
      ∧ issued bus (XRA1201_GetPinDirection D id bus).2 = readsAt (0x10 + id) 0x06
      ∧ issued bus (XRA1201_SetInputPullupEnable D id v bus) = writesAt (0x10 + id) 0x08 v
      ∧ issued bus (XRA1201_GetInputPullupEnable D id bus).2 = readsAt (0x10 + id) 0x08
      ∧ issued bus (XRA1201_SetInterruptEnable D id v bus) = writesAt (0x10 + id) 0x0A v
      ∧ issued bus (XRA1201_GetInterruptEnable D id bus).2 = readsAt (0x10 + id) 0x0A
      ∧ issued bus (XRA1201_SetOutputThreeStateEnable D id v bus) = writesAt (0x10 + id) 0x0C v
      ∧ issued bus (XRA1201_GetOutputThreeStateEnable D id bus).2 = readsAt (0x10 + id) 0x0C
      ∧ issued bus (XRA1201_GetInterruptStatus D id bus).2 = readsAt (0x10 + id) 0x0E
      ∧ issued bus (XRA1201_SetInterruptRisingEdgeEnable D id v bus) = writesAt (0x10 + id) 0x10 v
      ∧ issued bus (XRA1201_GetInterruptRisingEdgeEnable D id bus).2 = readsAt (0x10 + id) 0x10
      ∧ issued bus (XRA1201_SetInterruptFallingEdgeEnable D id v bus) =
        writesAt (0x10 + id) 0x12 v
      ∧ issued bus (XRA1201_GetInterruptFallingEdgeEnable D id bus).2 = readsAt (0x10 + id) 0x12
      ∧ issued bus (XRA1201_SetInterruptFilterEnable D id v bus) = writesAt (0x10 + id) 0x14 v
      ∧ issued bus (XRA1201_GetInterruptFilterEnable D id bus).2 = readsAt (0x10 + id) 0x14
      ∧ (∀ s : Setter, s.getter.reg = s.reg
          ∧ issued bus (s.run D id v bus) = writesAt (0x10 + id) (specAddr s.reg) v
          ∧ issued bus (s.getter.run D id bus).2 = readsAt (0x10 + id) (specAddr s.reg))
      ∧ (∀ g : Getter, issued bus (g.run D id bus).2 = readsAt (0x10 + id) (specAddr g.reg))
      ∧ List.Pairwise List.Disjoint (allRegs.map (fun r => [specAddr r, specAddr r + 1]))
      ∧ (allRegs.map (fun r => [specAddr r, specAddr r + 1])).flatten = List.range 22
      ∧ List.range 22 = [0x00, 0x01, 0x02, 0x03, 0x04, 0x05, 0x06, 0x07, 0x08, 0x09, 0x0A,
          0x0B, 0x0C, 0x0D, 0x0E, 0x0F, 0x10, 0x11, 0x12, 0x13, 0x14, 0x15] := by
  refine ⟨rfl, fun r => by cases r <;> decide,
    issued_append _ _ _ (Getter_run_trace D Getter.GpioState id bus),
    issued_append _ _ _ (Setter_run_trace D Setter.OutputValue id v bus),
    issued_append _ _ _ (Getter_run_trace D Getter.OutputValue id bus),
    issued_append _ _ _ (Setter_run_trace D Setter.InputPolarityInversion id v bus),
    issued_append _ _ _ (Getter_run_trace D Getter.InputPolarityInversion id bus),
    issued_append _ _ _ (Setter_run_trace D Setter.PinDirection id v bus),
    issued_append _ _ _ (Getter_run_trace D Getter.PinDirection id bus),
    issued_append _ _ _ (Setter_run_trace D Setter.InputPullupEnable id v bus),
    issued_append _ _ _ (Getter_run_trace D Getter.InputPullupEnable id bus),
    issued_append _ _ _ (Setter_run_trace D Setter.InterruptEnable id v bus),
    issued_append _ _ _ (Getter_run_trace D Getter.InterruptEnable id bus),
    issued_append _ _ _ (Setter_run_trace D Setter.OutputThreeStateEnable id v bus),
    issued_append _ _ _ (Getter_run_trace D Getter.OutputThreeStateEnable id bus),
    issued_append _ _ _ (Getter_run_trace D Getter.InterruptStatus id bus),
    issued_append _ _ _ (Setter_run_trace D Setter.InterruptRisingEdgeEnable id v bus),
    issued_append _ _ _ (Getter_run_trace D Getter.InterruptRisingEdgeEnable id bus),
    issued_append _ _ _ (Setter_run_trace D Setter.InterruptFallingEdgeEnable id v bus),
    issued_append _ _ _ (Getter_run_trace D Getter.InterruptFallingEdgeEnable id bus),
    issued_append _ _ _ (Setter_run_trace D Setter.InterruptFilterEnable id v bus),
    issued_append _ _ _ (Getter_run_trace D Getter.InterruptFilterEnable id bus),
    ?_, fun g => issued_append _ _ _ (Getter_run_trace D g id bus), ?_, by decide, by decide⟩
  · intro s
    refine ⟨by cases s <;> rfl, issued_append _ _ _ (Setter_run_trace D s id v bus), ?_⟩
    have h := issued_append _ _ _ (Getter_run_trace D s.getter id bus)
    have hr : s.getter.reg = s.reg := by cases s <;> rfl
    rw [hr] at h
    exact h
  · simp [allRegs, specAddr, List.Disjoint]

/-! ## The accessors on the echoing mock -/

theorem mock_getter_val (g : Getter) (id : Nat) (bus : Bus MockMem) :
    (g.run mockDevice id bus).1 =
      (bus.dev (0x10 + id) (specAddr g.reg) % 256) |||
        ((bus.dev (0x10 + id) (specAddr g.reg + 1) % 256) <<< 8) := by
  rw [Getter_run_eq]
  rw [combine_bytes _ _ (ReadReg_lt _ _ _ _) (ReadReg_lt _ _ _ _), ReadReg_eq, ReadReg_eq]
  rfl

theorem mock_setter_dev (s : Setter) (id v : Nat) (bus : Bus MockMem) (sl a : Nat) :
    (s.run mockDevice id v bus).dev sl a =
      if sl = 0x10 + id ∧ a = specAddr s.reg + 1 then (v >>> 8) &&& 0xFF
      else if sl = 0x10 + id ∧ a = specAddr s.reg then v &&& 0xFF
      else bus.dev sl a := by
  rw [Setter_run_eq, WriteReg_eq, WriteReg_eq, low_byte_arg, high_byte_arg]
  rfl

theorem split_then_combine (v : Nat) (hv : v < 65536) :
    ((v &&& 0xFF) % 256) ||| ((((v >>> 8) &&& 0xFF) % 256) <<< 8) = v := by
  rw [lor_shift_eq_add _ _ (Nat.mod_lt _ (by decide)), and_ff_eq_mod, and_ff_eq_mod,
    Nat.shiftRight_eq_div_pow]
  omega

/-- C1: on the echoing mock bus, for every setter, every device id (those in 0..31 among them)
and every 16-bit value `v`, the setter followed immediately by the getter of the same name
returns exactly `v`; this is spelled out for `XRA1201_SetOutputValue` and
`XRA1201_GetOutputValue`, and holds alike for pin direction, input polarity inversion, pull-up
enable, interrupt enable, three-state enable, rising-edge enable, falling-edge enable and
filter enable. -/
theorem set_then_get_returns_value (s : Setter) (id v : Nat) (bus : Bus MockMem)
    (hv : v < 65536) :
    (s.getter.run mockDevice id (s.run mockDevice id v bus)).1 = v
      ∧ (XRA1201_GetOutputValue mockDevice id
          (XRA1201_SetOutputValue mockDevice id v bus)).1 = v := by
  have key : ∀ t : Setter, (t.getter.run mockDevice id (t.run mockDevice id v bus)).1 = v := by
    intro t
    have hr : t.getter.reg = t.reg := by cases t <;> rfl
    rw [mock_getter_val, hr, mock_setter_dev, mock_setter_dev]
    have hne : specAddr t.reg ≠ specAddr t.reg + 1 := by omega
    simp only [hne, and_false, and_self, if_true, if_false]
    exact split_then_combine v hv
  exact ⟨key s, key Setter.OutputValue⟩

/-- Witness for C1: 0x00FF is a 16-bit value, and `XRA1201_SetPinDirection(0, 0x00FF)` followed
by `XRA1201_GetPinDirection(0)` on the mock bus returns 0x00FF. -/
theorem set_then_get_returns_value_witness :
    (0x00FF < 65536)
      ∧ (XRA1201_GetPinDirection mockDevice 0
          (XRA1201_SetPinDirection mockDevice 0 0x00FF (mockBus (fun _ _ => 0)))).1 = 0x00FF :=
  ⟨by decide,
    (set_then_get_returns_value Setter.PinDirection 0 0x00FF (mockBus (fun _ _ => 0))
      (by decide)).1⟩

/-- C9: on the echoing mock bus a setter of function F called for device `id` leaves every
stored byte unchanged other than the two at `(0x10 + id, X)` and `(0x10 + id, X + 1)`, with `X`
the register-1 address of F; hence a getter of another function, on any device, and any getter
on another device, returns after the set what it returned before it. -/
theorem setter_changes_only_its_pair (s : Setter) (g : Getter) (id id' v sl a : Nat)
    (bus : Bus MockMem) :
    (¬ (sl = 0x10 + id ∧ (a = specAddr s.reg ∨ a = specAddr s.reg + 1)) →
        (s.run mockDevice id v bus).dev sl a = bus.dev sl a)
      ∧ (g.reg ≠ s.reg →
        (g.run mockDevice id' (s.run mockDevice id v bus)).1 = (g.run mockDevice id' bus).1)
      ∧ (id' ≠ id →
        (g.run mockDevice id' (s.run mockDevice id v bus)).1 =
          (g.run mockDevice id' bus).1) := by
  have frame : ∀ sl a, ¬ (sl = 0x10 + id ∧ (a = specAddr s.reg ∨ a = specAddr s.reg + 1)) →
      (s.run mockDevice id v bus).dev sl a = bus.dev sl a := by
    intro sl a h
    rw [mock_setter_dev]
    have h1 : ¬ (sl = 0x10 + id ∧ a = specAddr s.reg + 1) :=
      fun ⟨x, y⟩ => h ⟨x, Or.inr y⟩
    have h2 : ¬ (sl = 0x10 + id ∧ a = specAddr s.reg) := fun ⟨x, y⟩ => h ⟨x, Or.inl y⟩
    rw [if_neg h1, if_neg h2]
  refine ⟨frame sl a, ?_, ?_⟩
  · intro hreg
    rw [mock_getter_val, mock_getter_val, frame, frame]
    · rintro ⟨-, h⟩
      revert hreg h
      cases g <;> cases s <;> simp [specAddr, Getter.reg, Setter.reg]
    · rintro ⟨-, h⟩
      revert hreg h
      cases g <;> cases s <;> simp [specAddr, Getter.reg, Setter.reg]
  · intro hid
    rw [mock_getter_val, mock_getter_val, frame, frame]
    · rintro ⟨h, -⟩
      omega
    · rintro ⟨h, -⟩
      omega

/-- Witness for C9: after `XRA1201_SetOutputValue(0, 0x1234)` on a mock whose registers all
hold 0xFF, the byte stored at (0x10, 0x06) is unchanged, `XRA1201_GetPinDirection(0)` returns
what it returned before, and so does `XRA1201_GetOutputValue(1)`. -/
theorem setter_changes_only_its_pair_witness :
    (¬ (0x10 = 0x10 + 0 ∧ (0x06 = specAddr Setter.OutputValue.reg
          ∨ 0x06 = specAddr Setter.OutputValue.reg + 1)))
      ∧ (XRA1201_SetOutputValue mockDevice 0 0x1234 (mockBus (fun _ _ => 0xFF))).dev 0x10 0x06 =
        (mockBus (fun _ _ => 0xFF)).dev 0x10 0x06
      ∧ Getter.PinDirection.reg ≠ Setter.OutputValue.reg
      ∧ (XRA1201_GetPinDirection mockDevice 0
          (XRA1201_SetOutputValue mockDevice 0 0x1234 (mockBus (fun _ _ => 0xFF)))).1 =
        (XRA1201_GetPinDirection mockDevice 0 (mockBus (fun _ _ => 0xFF))).1
      ∧ (1 ≠ 0)
      ∧ (XRA1201_GetOutputValue mockDevice 1
          (XRA1201_SetOutputValue mockDevice 0 0x1234 (mockBus (fun _ _ => 0xFF)))).1 =
        (XRA1201_GetOutputValue mockDevice 1 (mockBus (fun _ _ => 0xFF))).1 :=
  ⟨by decide,
    (setter_changes_only_its_pair Setter.OutputValue Getter.PinDirection 0 0 0x1234 0x10 0x06
      (mockBus (fun _ _ => 0xFF))).1 (by decide),
    by decide,
    (setter_changes_only_its_pair Setter.OutputValue Getter.PinDirection 0 0 0x1234 0x10 0x06
      (mockBus (fun _ _ => 0xFF))).2.1 (by decide),
    by decide,
    (setter_changes_only_its_pair Setter.OutputValue Getter.OutputValue 0 1 0x1234 0x10 0x06
      (mockBus (fun _ _ => 0xFF))).2.2 (by decide)⟩

/-- C10: on the echoing mock bus, `XRA1201_WriteReg(id, addr, data)` followed by
`XRA1201_ReadReg(id, addr)` returns `data mod 256`, that is `data & 0xFF`, which is `data`
exactly when `data` is at most 0xFF; a data word with the same low byte leaves the bus in the
same state and reads back the same, so the high byte cannot be recovered.  For instance 0x1234
reads back as 0x34. -/
theorem writeReg_then_readReg_returns_low_byte (id addr data data' : Nat) (bus : Bus MockMem)
    (hlow : data' % 256 = data % 256) :
    (XRA1201_ReadReg mockDevice id addr (XRA1201_WriteReg mockDevice id addr data bus)).1 =
        data % 256
      ∧ data % 256 = data &&& 0xFF
      ∧ ((XRA1201_ReadReg mockDevice id addr
            (XRA1201_WriteReg mockDevice id addr data bus)).1 = data ↔ data ≤ 0xFF)
      ∧ XRA1201_WriteReg mockDevice id addr data' bus =
        XRA1201_WriteReg mockDevice id addr data bus
      ∧ (XRA1201_ReadReg mockDevice id addr
            (XRA1201_WriteReg mockDevice id addr data' bus)).1 =
        (XRA1201_ReadReg mockDevice id addr (XRA1201_WriteReg mockDevice id addr data bus)).1
      ∧ (XRA1201_ReadReg mockDevice id addr
            (XRA1201_WriteReg mockDevice id addr 0x1234 bus)).1 = 0x34 := by
  have key : ∀ d : Nat, (XRA1201_ReadReg mockDevice id addr
      (XRA1201_WriteReg mockDevice id addr d bus)).1 = d % 256 := by
    intro d
    rw [ReadReg_eq, WriteReg_eq]
    simp [mockDevice]
  have hw : XRA1201_WriteReg mockDevice id addr data' bus =
      XRA1201_WriteReg mockDevice id addr data bus := by
    rw [WriteReg_eq, WriteReg_eq, hlow]
  refine ⟨key data, (and_ff_eq_mod data).symm, ?_, hw, by rw [hw], key 0x1234⟩
  rw [key data]
  omega

/-- Witness for C10: 0xAB34 and 0x1234 agree modulo 256, and on the mock bus writing 0x1234 to
register 0x02 of device 0 and reading it back returns 0x34, as does writing 0xAB34. -/
theorem writeReg_then_readReg_returns_low_byte_witness :
    (0xAB34 % 256 = 0x1234 % 256)
      ∧ (XRA1201_ReadReg mockDevice 0 0x02
          (XRA1201_WriteReg mockDevice 0 0x02 0x1234 (mockBus (fun _ _ => 0)))).1 = 0x1234 % 256
      ∧ (XRA1201_ReadReg mockDevice 0 0x02
          (XRA1201_WriteReg mockDevice 0 0x02 0xAB34 (mockBus (fun _ _ => 0)))).1 =
        (XRA1201_ReadReg mockDevice 0 0x02
          (XRA1201_WriteReg mockDevice 0 0x02 0x1234 (mockBus (fun _ _ => 0)))).1 :=
  ⟨by decide,
    (writeReg_then_readReg_returns_low_byte 0 0x02 0x1234 0xAB34 (mockBus (fun _ _ => 0))
      (by decide)).1,
    (writeReg_then_readReg_returns_low_byte 0 0x02 0x1234 0xAB34 (mockBus (fun _ _ => 0))
      (by decide)).2.2.2.2.1⟩

end XRA1201
